import Mathlib

set_option maxRecDepth 100000

/-!
Shallow embedding of `src/app.py` (mindmapify), the PDF-to-mindmap pipeline.

Python strings are modelled as Lean `String` (sequences of unicode code
points, matching Python `str` indexing/length semantics); for the escaping
function of `create_markmap_html` the underlying `List Char` view is used.
Python `None`-able strings are `Option String`; Python truthiness of such a
value (`None` and `""` are falsy) is `strTruthy`.

The two external effects — the Gemini network call and the PDF reader — are
modelled as oracle parameters (`AIOutcome`, the `pages`/`readerRaises`
inputs), so every function here is the pure image of the corresponding
Python function over those oracles.  Calls to `st.info` / `st.warning` /
`st.error` are modelled by accumulating the message strings in `notices`
fields, in emission order.
-/

/-- Python truthiness of an optional string: `None` and `""` are falsy. -/
def strTruthy : Option String → Bool
  | none => false
  | some s => if s = "" then false else true

/-- Removal of leading and trailing whitespace from a character list.
This embeds Python `str.strip()` (and is also the specification §4.1 "trimming
surrounding whitespace"). -/
def trimChars (l : List Char) : List Char :=
  ((l.dropWhile Char.isWhitespace).reverse.dropWhile Char.isWhitespace).reverse

/-- Embeds Python `str.strip()` on the `String` view. -/
def pyStrip (s : String) : String :=
  String.mk (trimChars s.data)

/-- The two entries of the sidebar radio button `api_choice`
(`"Google Generative AI (requires key)"` vs `"Simple Generator (no API needed)"`). -/
inductive ApiChoice
  | googleAI
  | simpleGenerator
deriving DecidableEq

/-- Embeds `generate_simple_mindmap` (src/app.py lines 263-265): the body is
`return f"# Main Topic\n## Subtopic 1\n### Detail 1\n- Key point 1\n- Key point 2\n## Subtopic 2\n### Detail 2"`,
an f-string with no interpolated fields, i.e. a constant. -/
def generate_simple_mindmap (text : String) : String :=
  "# Main Topic\n## Subtopic 1\n### Detail 1\n- Key point 1\n- Key point 2\n## Subtopic 2\n### Detail 2"

/-- Result of `configure_genai`: its Boolean return value plus the
`st.error` messages it emitted. -/
structure ConfigResult where
  ok : Bool
  notices : List String
deriving DecidableEq

/-- Embeds `configure_genai` (src/app.py lines 12-22).  `apiKey` is the
module-level `API_KEY = os.getenv("GOOGLE_API_KEY")`; `configureRaises`
is `some msg` when `genai.configure` raises an exception with message `msg`. -/
def configure_genai (apiKey : Option String) (configureRaises : Option String) : ConfigResult :=
  if strTruthy apiKey = false then
    { ok := false, notices := ["API Key is missing. Please provide a valid Google API key."] }
  else
    match configureRaises with
    | some emsg => { ok := false, notices := ["Error configuring Google API: " ++ emsg] }
    | none => { ok := true, notices := [] }

/-- Embeds `extract_text_from_pdf` (src/app.py lines 24-39) over the oracle
`pages` (the list of `page.extract_text()` results, where a Python `None`
result is identified with `""` — both are falsy and skipped) and
`readerRaises` (true when `PdfReader`/page iteration raises, caught by the
`except` arm which returns `None`). -/
def extract_text_from_pdf (readerRaises : Bool) (pages : List String) : Option String :=
  if readerRaises then none
  else
    let text := pages.foldl (fun acc p => if p = "" then acc else acc ++ p ++ "\n") ""
    if pyStrip text = "" then none else some (pyStrip text)

/-- Oracle for the single `model.generate_content` call inside
`create_mindmap_markdown`: the call raises with message `msg`, or returns a
response whose `.text` payload is `payload` (`none` models a falsy/absent
textual payload). -/
inductive AIOutcome
  | raises (msg : String)
  | returns (payload : Option String)

/-- Result of `create_mindmap_markdown`: the returned value, the document
text actually interpolated into the prompt sent to the AI (the `text`
variable after the truncation guard of lines 84-87), and the emitted
notices. -/
structure AIGenResult where
  result : Option String
  passedText : String
  notices : List String

/-- The `max_chars = 30000` cap of src/app.py line 84. -/
def max_chars : Nat := 30000

/-- The truncation guard of src/app.py lines 85-86:
`text = text[:max_chars] + "..."` when `len(text) > max_chars`. -/
def ai_input (text : String) : String :=
  if max_chars < text.length then text.take max_chars ++ "..." else text

/-- Embeds `create_mindmap_markdown` (src/app.py lines 73-151): the model
name is the constant `"gemini-1.5-flash"` (never falsy, so the early
`return None` of line 79 is dead), the input guard truncates at 30000
characters with a warning, and the response handling returns `None` on any
exception, on a falsy textual payload, or on a whitespace-only payload
(otherwise the stripped payload).  Exceptions are modelled as occurring at
the network call, after the truncation guard. -/
def create_mindmap_markdown (text : String) (outcome : AIOutcome) : AIGenResult :=
  let notices0 := ["Using model: gemini-1.5-flash"]
  let notices1 :=
    if max_chars < text.length then
      notices0 ++ ["Text was truncated to 30000 characters due to length limitations."]
    else notices0
  match outcome with
  | .raises msg =>
      { result := none, passedText := ai_input text
        notices := notices1 ++ ["Error generating mindmap: " ++ msg] }
  | .returns none =>
      { result := none, passedText := ai_input text
        notices := notices1 ++ ["Received empty response from Gemini AI"] }
  | .returns (some s) =>
      if pyStrip s = "" then
        { result := none, passedText := ai_input text
          notices := notices1 ++ ["Received empty response from Gemini AI"] }
      else
        { result := some (pyStrip s), passedText := ai_input text, notices := notices1 }

/-- Result of the generation step of `main` (src/app.py lines 242-249):
the value of `markdown_content`, the notices emitted during generation, and
how many times the AI call and `generate_simple_mindmap` were invoked. -/
structure GenOutcome where
  markdown : Option String
  notices : List String
  aiCalls : Nat
  fallbackCalls : Nat

/-- Embeds src/app.py lines 242-249: if the Google provider is selected and
the module-level `API_KEY` is truthy, attempt `create_mindmap_markdown`
once; on a falsy result warn and fall back to `generate_simple_mindmap`;
otherwise invoke `generate_simple_mindmap` directly. -/
def run_generation (apiChoice : ApiChoice) (apiKey : Option String) (text : String)
    (outcome : AIOutcome) : GenOutcome :=
  if apiChoice = ApiChoice.googleAI ∧ strTruthy apiKey = true then
    let r := create_mindmap_markdown text outcome
    if strTruthy r.result = true then
      { markdown := r.result, notices := r.notices, aiCalls := 1, fallbackCalls := 0 }
    else
      { markdown := some (generate_simple_mindmap text)
        notices := r.notices ++ ["AI generation failed. Falling back to simple generator."]
        aiCalls := 1, fallbackCalls := 1 }
  else
    { markdown := some (generate_simple_mindmap text), notices := []
      aiCalls := 0, fallbackCalls := 1 }

/-- Result of one run of `main` (src/app.py lines 206-261): the outline
that reaches the tabs/downloads (`none` when no outline is rendered),
whether `main` returned early at line 231, the notices, and the AI/fallback
invocation counts. -/
structure MainResult where
  outline : Option String
  halted_early : Bool
  notices : List String
  aiCalls : Nat
  fallbackCalls : Nat

/-- Embeds the control flow of `main` (src/app.py lines 226-261):
line 230 returns early when the Google provider is selected and
`configure_genai()` fails; otherwise, if a file was uploaded, the text is
extracted and, on extraction success, the generation step of lines 242-249
runs and its `markdown_content` is rendered when truthy.  (The purely
cosmetic `st.success` message of line 240 and the extraction-failure
notices are not tracked.) -/
def run_main (apiChoice : ApiChoice) (apiKey : Option String) (configureRaises : Option String)
    (uploaded : Bool) (readerRaises : Bool) (pages : List String)
    (outcome : AIOutcome) : MainResult :=
  if apiChoice = ApiChoice.googleAI ∧ (configure_genai apiKey configureRaises).ok = false then
    { outline := none, halted_early := true
      notices := (configure_genai apiKey configureRaises).notices
      aiCalls := 0, fallbackCalls := 0 }
  else if uploaded = false then
    { outline := none, halted_early := false, notices := [], aiCalls := 0, fallbackCalls := 0 }
  else
    match extract_text_from_pdf readerRaises pages with
    | none =>
        { outline := none, halted_early := false, notices := [], aiCalls := 0, fallbackCalls := 0 }
    | some text =>
        let g := run_generation apiChoice apiKey text outcome
        if strTruthy g.markdown = true then
          { outline := g.markdown, halted_early := false, notices := g.notices
            aiCalls := g.aiCalls, fallbackCalls := g.fallbackCalls }
        else
          { outline := none, halted_early := false, notices := g.notices
            aiCalls := g.aiCalls, fallbackCalls := g.fallbackCalls }

/-!
Spec-side definitions.  The specification (§4.1) describes the
Deterministic Fallback as a candidate-line algorithm; the following
definitions follow the words of the spec only, to be compared with the source function
`generate_simple_mindmap` above.  A "line" is the unit used by the spec: the text
split on newline characters.
-/

/-- Spec-side candidate test (§4.1): a line qualifies when its trimmed
length exceeds 20 characters. -/
def qualifiesLine (l : List Char) : Bool :=
  decide (20 < (trimChars l).length)

/-- Spec-side candidate existence (§4.1): some line among the first 10
lines of the document qualifies. -/
def hasCandidate (t : String) : Bool :=
  ((t.data.splitOn '\n').take 10).any qualifiesLine

/-- The backtick character (U+0060). -/
def backtickChar : Char := Char.ofNat 96

/-- The opening curly brace character (U+007B). -/
def lbraceChar : Char := Char.ofNat 123

/-- Python `str.replace(pat, rep)` on the character-list view: replace
every non-overlapping occurrence of the non-empty pattern `p :: ps` by
`rep`, scanning left to right. -/
def pyReplace (p : Char) (ps : List Char) (rep : List Char) : List Char → List Char
  | [] => []
  | c :: rest =>
    if (p :: ps).isPrefixOf (c :: rest) then rep ++ pyReplace p ps rep (rest.drop ps.length)
    else c :: pyReplace p ps rep rest
termination_by l => l.length
decreasing_by
  · simp only [List.length_drop, List.length_cons]
    omega
  · simp

/-- Embeds the escaping line of `create_markmap_html` (src/app.py line
155): `markdown_content.replace(backtick, backslash-backtick)` followed by
`.replace(dollar-brace, backslash-dollar-brace)`, on the character-list
view of `markdown_content`. -/
def markmap_escape (s : List Char) : List Char :=
  pyReplace '$' [lbraceChar] ['\\', '$', lbraceChar]
    (pyReplace backtickChar [] ['\\', backtickChar] s)

/-- Spec-side escaping (§4.3): in one pass, prefix every backtick and
every dollar-brace token start with a backslash, and change nothing
else. -/
def escapeSpec : List Char → List Char
  | [] => []
  | c :: rest =>
    if c = backtickChar then '\\' :: backtickChar :: escapeSpec rest
    else if c = '$' then
      match rest with
      | [] => ['$']
      | d :: rest2 =>
        if d = lbraceChar then '\\' :: '$' :: lbraceChar :: escapeSpec rest2
        else '$' :: escapeSpec (d :: rest2)
    else c :: escapeSpec rest

/-- A concrete document text consisting of one line whose trimmed length
(61) exceeds 20 characters, used as concrete input below. -/
def sampleLongLine : String :=
  "This is a line that is clearly longer than twenty characters."

/-- A concrete 40000-character document text, used as concrete input for
the truncation guard. -/
def bigT : String := String.mk (List.replicate 40000 'a')

/-- Single-pass backtick escaping: the effect of the first `replace` call
of src/app.py line 155 (helper for relating `pyReplace` to `escapeSpec`). -/
def bEsc : List Char → List Char
  | [] => []
  | c :: rest =>
    if c = backtickChar then '\\' :: backtickChar :: bEsc rest else c :: bEsc rest

/-- C10: the output of the fallback generator is identical for every pair of
input texts — it returns one fixed constant markdown string and its result
does not depend on the document text at all. -/
theorem c10_fallback_is_constant (t1 t2 : String) :
    generate_simple_mindmap t1 = generate_simple_mindmap t2 ∧
    generate_simple_mindmap t1 =
      "# Main Topic\n## Subtopic 1\n### Detail 1\n- Key point 1\n- Key point 2\n## Subtopic 2\n### Detail 2" :=
  ⟨rfl, rfl⟩

/-- C1 counterexample: `sampleLongLine` has a qualifying candidate line
among its first 10 lines, yet the fallback output does not contain the
root heading text "Document Summary" at all — so the output is not the
claimed "Document Summary"-rooted, per-candidate outline. -/
theorem c1_counterexample :
    hasCandidate sampleLongLine = true ∧
    ¬ ("Document Summary".data <:+: (generate_simple_mindmap sampleLongLine).data) := by
  decide

/-- C1 amended: for every Document Text with a qualifying candidate line
(trimmed length > 20 among the first 10 lines), the fallback generator
returns the fixed outline below, whose headings and bullets are unrelated
to the candidate lines. -/
theorem c1_amended_fallback_ignores_candidates (t : String)
    (_h : hasCandidate t = true) :
    generate_simple_mindmap t =
      "# Main Topic\n## Subtopic 1\n### Detail 1\n- Key point 1\n- Key point 2\n## Subtopic 2\n### Detail 2" :=
  rfl

/-- C1 amended, witness: the hypothesis holds at `sampleLongLine` and the
amended conclusion follows there. -/
theorem c1_amended_witness :
    hasCandidate sampleLongLine = true ∧
    generate_simple_mindmap sampleLongLine =
      "# Main Topic\n## Subtopic 1\n### Detail 1\n- Key point 1\n- Key point 2\n## Subtopic 2\n### Detail 2" :=
  ⟨by decide, c1_amended_fallback_ignores_candidates sampleLongLine (by decide)⟩

/-- C8 counterexample: "short text" has no qualifying line, yet the
fallback output is not the root heading alone: it contains the
second-level heading line "## Subtopic 1", and it differs from a bare
root heading. -/
theorem c8_counterexample :
    hasCandidate "short text" = false ∧
    "## Subtopic 1".data ∈ (generate_simple_mindmap "short text").data.splitOn '\n' ∧
    generate_simple_mindmap "short text" ≠ "# Document Summary" := by
  decide

/-- C8 amended: for every Document Text with no qualifying line, the
fallback output is the fixed constant outline (which contains second-level
subsections), and is in particular non-empty. -/
theorem c8_amended_no_candidate_constant (t : String)
    (_h : hasCandidate t = false) :
    generate_simple_mindmap t =
      "# Main Topic\n## Subtopic 1\n### Detail 1\n- Key point 1\n- Key point 2\n## Subtopic 2\n### Detail 2" ∧
    generate_simple_mindmap t ≠ "" :=
  ⟨rfl, by
    show ("# Main Topic\n## Subtopic 1\n### Detail 1\n- Key point 1\n- Key point 2\n## Subtopic 2\n### Detail 2" : String) ≠ ""
    decide⟩

/-- C8 amended, witness: the hypothesis holds at "short text" and the
amended conclusion follows there. -/
theorem c8_amended_witness :
    hasCandidate "short text" = false ∧
    (generate_simple_mindmap "short text" =
      "# Main Topic\n## Subtopic 1\n### Detail 1\n- Key point 1\n- Key point 2\n## Subtopic 2\n### Detail 2" ∧
     generate_simple_mindmap "short text" ≠ "") :=
  ⟨by decide, c8_amended_no_candidate_constant "short text" (by decide)⟩

/-- C3 counterexample: with AI mode selected and the credential absent,
and with a PDF whose text extraction would succeed, `main` returns early
at line 231: no outline is produced, no AI call and no fallback call is
made — the pipeline halts rather than producing the fallback outline. -/
theorem c3_counterexample :
    (run_main ApiChoice.googleAI none none true false
        ["This page surely has plenty of extractable text."]
        (AIOutcome.returns (some "# AI outline"))).outline = none ∧
    (run_main ApiChoice.googleAI none none true false
        ["This page surely has plenty of extractable text."]
        (AIOutcome.returns (some "# AI outline"))).halted_early = true ∧
    (run_main ApiChoice.googleAI none none true false
        ["This page surely has plenty of extractable text."]
        (AIOutcome.returns (some "# AI outline"))).fallbackCalls = 0 ∧
    extract_text_from_pdf false
        ["This page surely has plenty of extractable text."] ≠ none := by
  decide

/-- C3 amended: when AI mode is selected but the credential is absent or
empty, `main` emits the missing-key notice and returns early before the
upload/extraction stage: no outline is produced and no network call (and
no fallback call) is attempted. -/
theorem c3_amended_missing_key_halts (apiKey : Option String)
    (configureRaises : Option String) (uploaded readerRaises : Bool)
    (pages : List String) (outcome : AIOutcome)
    (hk : strTruthy apiKey = false) :
    run_main ApiChoice.googleAI apiKey configureRaises uploaded readerRaises pages outcome =
      { outline := none, halted_early := true
        notices := ["API Key is missing. Please provide a valid Google API key."]
        aiCalls := 0, fallbackCalls := 0 } := by
  have hcfg : configure_genai apiKey configureRaises =
      { ok := false
        notices := ["API Key is missing. Please provide a valid Google API key."] } := by
    unfold configure_genai
    rw [if_pos hk]
  unfold run_main
  rw [if_pos ⟨rfl, by rw [hcfg]⟩, hcfg]

/-- C3 amended, witness: the hypothesis holds for the empty credential and
the amended conclusion follows there. -/
theorem c3_amended_witness :
    strTruthy (some "") = false ∧
    run_main ApiChoice.googleAI (some "") none true false
        ["This page surely has plenty of extractable text."]
        (AIOutcome.returns (some "# AI outline")) =
      { outline := none, halted_early := true
        notices := ["API Key is missing. Please provide a valid Google API key."]
        aiCalls := 0, fallbackCalls := 0 } :=
  ⟨by decide,
   c3_amended_missing_key_halts (some "") none true false
     ["This page surely has plenty of extractable text."]
     (AIOutcome.returns (some "# AI outline")) (by decide)⟩

/-- Helper: a truthy optional string is `some` of a non-empty string. -/
theorem strTruthy_eq_true_iff (x : Option String) :
    strTruthy x = true ↔ ∃ md, x = some md ∧ md ≠ "" := by
  cases x with
  | none => simp [strTruthy]
  | some s =>
    simp only [strTruthy]
    by_cases h : s = ""
    · simp [h]
    · simp [h]

/-- Helper: the generation step of `main` always ends with a truthy
`markdown_content` — the AI result is non-empty when accepted, and every
other path yields the (non-empty) fallback constant. -/
theorem run_generation_markdown_truthy (apiChoice : ApiChoice) (apiKey : Option String)
    (text : String) (outcome : AIOutcome) :
    strTruthy (run_generation apiChoice apiKey text outcome).markdown = true := by
  unfold run_generation
  split
  · by_cases h : strTruthy (create_mindmap_markdown text outcome).result = true
    · simp only [if_pos h]
      exact h
    · simp only [if_neg h]
      rfl
  · rfl

/-- C2: for every run in which text extraction succeeds (and which was not
already aborted by the pre-upload credential check of line 230 — see C3),
the pipeline produces a non-empty outline, whatever the AI call does:
every AI-path failure is absorbed by the fallback, and within the
extract-generate-render pipeline only extraction failure yields no
outline. -/
theorem c2_extraction_success_gives_outline (apiChoice : ApiChoice)
    (apiKey : Option String) (configureRaises : Option String) (readerRaises : Bool)
    (pages : List String) (outcome : AIOutcome) (t : String)
    (hcfg : apiChoice = ApiChoice.googleAI → (configure_genai apiKey configureRaises).ok = true)
    (hex : extract_text_from_pdf readerRaises pages = some t) :
    (run_main apiChoice apiKey configureRaises true readerRaises pages outcome).halted_early
        = false ∧
    ∃ md, (run_main apiChoice apiKey configureRaises true readerRaises pages outcome).outline
        = some md ∧ md ≠ "" := by
  have hnot : ¬ (apiChoice = ApiChoice.googleAI ∧
      (configure_genai apiKey configureRaises).ok = false) := by
    rintro ⟨h1, h2⟩
    rw [hcfg h1] at h2
    cases h2
  have htruthy := run_generation_markdown_truthy apiChoice apiKey t outcome
  obtain ⟨md, hmd, hne⟩ := (strTruthy_eq_true_iff _).mp htruthy
  unfold run_main
  rw [if_neg hnot]
  simp only [Bool.true_eq_false, if_neg (by trivial : ¬ (true = false)), hex]
  rw [if_pos htruthy]
  exact ⟨rfl, md, hmd, hne⟩

/-- C2 witness: a run in simple-generator mode on a one-page document whose
extraction succeeds; the hypotheses hold and the conclusion follows. -/
theorem c2_witness :
    (ApiChoice.simpleGenerator = ApiChoice.googleAI →
      (configure_genai none none).ok = true) ∧
    extract_text_from_pdf false ["This is sample page text for the witness check."] =
      some "This is sample page text for the witness check." ∧
    ((run_main ApiChoice.simpleGenerator none none true false
        ["This is sample page text for the witness check."]
        (AIOutcome.returns none)).halted_early = false ∧
     ∃ md, (run_main ApiChoice.simpleGenerator none none true false
        ["This is sample page text for the witness check."]
        (AIOutcome.returns none)).outline = some md ∧ md ≠ "") :=
  ⟨by decide, by decide,
   c2_extraction_success_gives_outline ApiChoice.simpleGenerator none none false
     ["This is sample page text for the witness check."] (AIOutcome.returns none)
     "This is sample page text for the witness check." (by decide) (by decide)⟩

/-- Helper: the text interpolated into the AI prompt is always the
output of the truncation guard. -/
theorem create_passedText (t : String) (o : AIOutcome) :
    (create_mindmap_markdown t o).passedText = ai_input t := by
  unfold create_mindmap_markdown
  cases o with
  | raises m => rfl
  | returns p =>
    cases p with
    | none => rfl
    | some s =>
      by_cases h : pyStrip s = "" <;> simp [h]

/-- C5: for text over 30000 characters, the document text passed to the AI
call is exactly its first 30000 characters plus the truncation marker
"...", and the truncation notice is surfaced; text of at most 30000
characters is passed unmodified. -/
theorem c5_truncation_guard (t : String) (o : AIOutcome) :
    (max_chars < t.length →
      (create_mindmap_markdown t o).passedText = t.take max_chars ++ "..." ∧
      "Text was truncated to 30000 characters due to length limitations." ∈
        (create_mindmap_markdown t o).notices) ∧
    (t.length ≤ max_chars → (create_mindmap_markdown t o).passedText = t) := by
  constructor
  · intro h
    constructor
    · rw [create_passedText]
      unfold ai_input
      rw [if_pos h]
    · unfold create_mindmap_markdown
      cases o with
      | raises m => simp [h]
      | returns p =>
        cases p with
        | none => simp [h]
        | some s => by_cases hs : pyStrip s = "" <;> simp [h, hs]
  · intro h
    rw [create_passedText]
    unfold ai_input
    rw [if_neg (by omega)]

/-- C5 witness: the hypotheses hold at a 40000-character text (truncated
path) and at "tiny" (unmodified path), and the conclusions follow there. -/
theorem c5_witness :
    (max_chars < bigT.length ∧
      ((create_mindmap_markdown bigT (AIOutcome.returns (some "# AI"))).passedText =
          bigT.take max_chars ++ "..." ∧
        "Text was truncated to 30000 characters due to length limitations." ∈
          (create_mindmap_markdown bigT (AIOutcome.returns (some "# AI"))).notices)) ∧
    (("tiny" : String).length ≤ max_chars ∧
      (create_mindmap_markdown "tiny" (AIOutcome.returns (some "# AI"))).passedText = "tiny") := by
  have hbig : max_chars < bigT.length := by
    have h1 : bigT.length = (List.replicate 40000 'a').length := rfl
    rw [h1, List.length_replicate]
    unfold max_chars
    omega
  have hsmall : ("tiny" : String).length ≤ max_chars := by decide
  exact ⟨⟨hbig, (c5_truncation_guard bigT (AIOutcome.returns (some "# AI"))).1 hbig⟩,
         ⟨hsmall, (c5_truncation_guard "tiny" (AIOutcome.returns (some "# AI"))).2 hsmall⟩⟩

/-- C6: when the AI call raises any error, returns a response with no
textual payload, or returns a payload that strips to the empty string, the
generation step treats the AI path as failed: it invokes the fallback
exactly once, surfaces the non-fatal fallback notice, and attempts the AI
call exactly once (no retry). -/
theorem c6_ai_failure_falls_back_once (apiKey : Option String) (t : String) (o : AIOutcome)
    (hk : strTruthy apiKey = true)
    (hfail : (∃ m, o = AIOutcome.raises m) ∨ o = AIOutcome.returns none ∨
      ∃ s, o = AIOutcome.returns (some s) ∧ pyStrip s = "") :
    (run_generation ApiChoice.googleAI apiKey t o).markdown
        = some (generate_simple_mindmap t) ∧
    (run_generation ApiChoice.googleAI apiKey t o).aiCalls = 1 ∧
    (run_generation ApiChoice.googleAI apiKey t o).fallbackCalls = 1 ∧
    "AI generation failed. Falling back to simple generator." ∈
      (run_generation ApiChoice.googleAI apiKey t o).notices := by
  have hres : (create_mindmap_markdown t o).result = none := by
    rcases hfail with ⟨m, rfl⟩ | rfl | ⟨s, rfl, hs⟩
    · rfl
    · rfl
    · unfold create_mindmap_markdown
      simp [hs]
  have hfalse : strTruthy (create_mindmap_markdown t o).result = false := by
    rw [hres]
    rfl
  unfold run_generation
  rw [if_pos ⟨rfl, hk⟩]
  simp [hfalse]

/-- C6 witness: the hypotheses hold for a truthy key and a whitespace-only
AI payload, and the conclusion follows there. -/
theorem c6_witness :
    strTruthy (some "key") = true ∧ pyStrip "   " = "" ∧
    ((run_generation ApiChoice.googleAI (some "key") "doc"
        (AIOutcome.returns (some "   "))).markdown
          = some (generate_simple_mindmap "doc") ∧
     (run_generation ApiChoice.googleAI (some "key") "doc"
        (AIOutcome.returns (some "   "))).aiCalls = 1 ∧
     (run_generation ApiChoice.googleAI (some "key") "doc"
        (AIOutcome.returns (some "   "))).fallbackCalls = 1 ∧
     "AI generation failed. Falling back to simple generator." ∈
       (run_generation ApiChoice.googleAI (some "key") "doc"
          (AIOutcome.returns (some "   "))).notices) :=
  ⟨by decide, by decide,
   c6_ai_failure_falls_back_once (some "key") "doc" (AIOutcome.returns (some "   "))
     (by decide) (Or.inr (Or.inr ⟨"   ", rfl, by decide⟩))⟩

/-- C7 counterexample: an AI error whose message contains "429" flows
through the one generic error arm — the emitted notices are exactly the
generic "Error generating mindmap: ..." sequence, structurally identical to
those of a non-rate-limit error, so no distinct `RateLimited`
classification (and no message inspection) exists in the code. -/
theorem c7_counterexample :
    (run_generation ApiChoice.googleAI (some "k") "doc"
        (AIOutcome.raises "429 Resource has been exhausted")).notices =
      ["Using model: gemini-1.5-flash",
       "Error generating mindmap: 429 Resource has been exhausted",
       "AI generation failed. Falling back to simple generator."] ∧
    (run_generation ApiChoice.googleAI (some "k") "doc"
        (AIOutcome.raises "a transient network error")).notices =
      ["Using model: gemini-1.5-flash",
       "Error generating mindmap: a transient network error",
       "AI generation failed. Falling back to simple generator."] ∧
    (run_generation ApiChoice.googleAI (some "k") "doc"
        (AIOutcome.raises "429 Resource has been exhausted")).markdown =
      some (generate_simple_mindmap "doc") := by
  decide

/-- C7 amended: an AI error with a rate-limit indicator in its message is
handled exactly like every other AI error — the same generic failure
notice with the message embedded, no message inspection, no distinct
classification — and the deterministic fallback outline is produced. -/
theorem c7_amended_429_handled_generically (apiKey : Option String) (t m : String)
    (hk : strTruthy apiKey = true) (hlen : t.length ≤ max_chars) :
    run_generation ApiChoice.googleAI apiKey t (AIOutcome.raises m) =
      { markdown := some (generate_simple_mindmap t)
        notices := ["Using model: gemini-1.5-flash", "Error generating mindmap: " ++ m,
                    "AI generation failed. Falling back to simple generator."]
        aiCalls := 1, fallbackCalls := 1 } := by
  have hnlt : ¬ (max_chars < t.length) := by omega
  have hfalse : strTruthy (create_mindmap_markdown t (AIOutcome.raises m)).result = false := rfl
  unfold run_generation
  rw [if_pos ⟨rfl, hk⟩]
  simp only [hfalse, Bool.false_eq_true, if_false]
  unfold create_mindmap_markdown
  simp [hnlt]

/-- C7 amended, witness: the hypotheses hold for a truthy key, a short
text and the message "429 quota exceeded", and the conclusion follows
there. -/
theorem c7_amended_witness :
    strTruthy (some "k") = true ∧ ("doc" : String).length ≤ max_chars ∧
    run_generation ApiChoice.googleAI (some "k") "doc"
        (AIOutcome.raises "429 quota exceeded") =
      { markdown := some (generate_simple_mindmap "doc")
        notices := ["Using model: gemini-1.5-flash",
                    "Error generating mindmap: 429 quota exceeded",
                    "AI generation failed. Falling back to simple generator."]
        aiCalls := 1, fallbackCalls := 1 } :=
  ⟨by decide, by decide,
   c7_amended_429_handled_generically (some "k") "doc" "429 quota exceeded"
     (by decide) (by decide)⟩

/-- Helper: trimming only removes characters — membership is preserved. -/
theorem trimChars_subset (l : List Char) : trimChars l ⊆ l := by
  intro x hx
  unfold trimChars at hx
  rw [List.mem_reverse] at hx
  have hx2 := (List.dropWhile_suffix Char.isWhitespace).subset hx
  rw [List.mem_reverse] at hx2
  exact (List.dropWhile_suffix Char.isWhitespace).subset hx2

/-- Helper: every 21-character window of the fallback constant contains a
newline (its longest line has 13 characters). -/
theorem fallback_window (i : Nat) (h : i < 74) :
    '\n' ∈ ((generate_simple_mindmap "").data.drop i).take 21 := by
  revert i
  decide

/-- Helper: every infix of the fallback constant of length at least 21
contains a newline character. -/
theorem long_infix_newline (l : List Char)
    (hinf : l <:+: (generate_simple_mindmap "").data) (hlen : 21 ≤ l.length) :
    '\n' ∈ l := by
  have h21inf : l.take 21 <:+: (generate_simple_mindmap "").data :=
    (( List.take_prefix 21 l).isInfix).trans hinf
  have hlen21 : (l.take 21).length = 21 := by
    rw [List.length_take]
    omega
  obtain ⟨s, t, hst⟩ := h21inf
  have hdrop : (generate_simple_mindmap "").data.drop s.length = l.take 21 ++ t := by
    rw [← hst, List.append_assoc, List.drop_left]
  have htake : ((generate_simple_mindmap "").data.drop s.length).take 21 = l.take 21 := by
    rw [hdrop, List.take_left' hlen21]
  have h94 : (generate_simple_mindmap "").data.length = 94 := by decide
  have hlens := congrArg List.length hst
  rw [List.length_append, List.length_append, hlen21, h94] at hlens
  have hbound : s.length < 74 := by omega
  have hwin := fallback_window s.length hbound
  rw [htake] at hwin
  exact List.take_subset 21 l hwin

/-- C9 counterexample: `sampleLongLine` is a qualifying candidate line of
trimmed length 61 ≤ 100, so per the claim it would be "emitted unchanged";
but its trimmed text does not occur anywhere in the fallback output. -/
theorem c9_counterexample :
    qualifiesLine sampleLongLine.data = true ∧
    (trimChars sampleLongLine.data).length ≤ 100 ∧
    ¬ (trimChars sampleLongLine.data <:+: (generate_simple_mindmap sampleLongLine).data) := by
  decide

/-- C9 amended: the fallback never emits candidate text, truncated or not:
for any newline-free candidate line of trimmed length > 20, neither its
trimmed text nor its 100-character truncation (with ellipsis marker)
occurs in the fallback output. -/
theorem c9_amended_no_candidate_emitted (line : String)
    (hnl : '\n' ∉ line.data) (hq : qualifiesLine line.data = true) :
    ¬ (trimChars line.data <:+: (generate_simple_mindmap line).data) ∧
    ¬ ((trimChars line.data).take 100 ++ "...".data <:+:
        (generate_simple_mindmap line).data) := by
  have hqlen : 20 < (trimChars line.data).length := of_decide_eq_true hq
  have hnl2 : '\n' ∉ trimChars line.data := fun h => hnl (trimChars_subset line.data h)
  have hdata : (generate_simple_mindmap line).data = (generate_simple_mindmap "").data := rfl
  constructor
  · intro hinf
    rw [hdata] at hinf
    exact hnl2 (long_infix_newline _ hinf (by omega))
  · intro hinf
    rw [hdata] at hinf
    have h1 : (trimChars line.data).take 100 <:+: (generate_simple_mindmap "").data :=
      ((List.prefix_append ((trimChars line.data).take 100) "...".data).isInfix).trans hinf
    have hlen100 : 21 ≤ ((trimChars line.data).take 100).length := by
      rw [List.length_take]
      omega
    have hmem := long_infix_newline _ h1 hlen100
    exact hnl2 (List.take_subset 100 _ hmem)

/-- C9 amended, witness: the hypotheses hold at `sampleLongLine` and the
amended conclusion follows there. -/
theorem c9_amended_witness :
    ('\n' ∉ sampleLongLine.data) ∧ qualifiesLine sampleLongLine.data = true ∧
    (¬ (trimChars sampleLongLine.data <:+: (generate_simple_mindmap sampleLongLine).data) ∧
     ¬ ((trimChars sampleLongLine.data).take 100 ++ "...".data <:+:
         (generate_simple_mindmap sampleLongLine).data)) :=
  ⟨by decide, by decide,
   c9_amended_no_candidate_emitted sampleLongLine (by decide) (by decide)⟩

/-- Helper: the first `replace` call of line 155 equals single-pass
backtick escaping. -/
theorem pyReplace_backtick_eq (l : List Char) :
    pyReplace backtickChar [] ['\\', backtickChar] l = bEsc l := by
  induction l with
  | nil => simp [pyReplace, bEsc]
  | cons c rest ih =>
    by_cases h : c = backtickChar
    · subst h
      simp [pyReplace, bEsc, List.isPrefixOf, ih]
    · have hb : (backtickChar == c) = false := by
        rw [beq_eq_false_iff_ne]
        exact fun hh => h hh.symm
      simp [pyReplace, bEsc, List.isPrefixOf, hb, h, ih]

/-- Helper: backtick escaping never turns a head that is not an opening
brace into one, so the brace-pattern prefix test stays false. -/
theorem isPrefixOf_lbrace_bEsc (l : List Char) (h : l.head? ≠ some lbraceChar) :
    [lbraceChar].isPrefixOf (bEsc l) = false := by
  cases l with
  | nil => simp [bEsc, List.isPrefixOf]
  | cons d r =>
    by_cases hd : d = backtickChar
    · subst hd
      have hlb : (lbraceChar == '\\') = false := by decide
      simp [bEsc, List.isPrefixOf, hlb]
    · have hdl : d ≠ lbraceChar := by
        intro hh
        exact h (by simp [hh])
      have hlb : (lbraceChar == d) = false := by
        rw [beq_eq_false_iff_ne]
        exact fun hh => hdl hh.symm
      simp [bEsc, hd, List.isPrefixOf, hlb]

/-- Branch equation of `escapeSpec` at a backtick head. -/
theorem escapeSpec_backtick (rest : List Char) :
    escapeSpec (backtickChar :: rest) = '\\' :: backtickChar :: escapeSpec rest := by
  rw [escapeSpec.eq_def]
  simp

/-- Branch equation of `escapeSpec` at a final dollar. -/
theorem escapeSpec_dollar_nil : escapeSpec ['$'] = ['$'] := by
  rw [escapeSpec.eq_def]
  simp [show ¬ ('$' = backtickChar) from by decide]

/-- Branch equation of `escapeSpec` at a dollar-brace token. -/
theorem escapeSpec_dollar_lbrace (rest2 : List Char) :
    escapeSpec ('$' :: lbraceChar :: rest2) =
      '\\' :: '$' :: lbraceChar :: escapeSpec rest2 := by
  rw [escapeSpec.eq_def]
  simp [show ¬ ('$' = backtickChar) from by decide]

/-- Branch equation of `escapeSpec` at a dollar not followed by a brace. -/
theorem escapeSpec_dollar_other (d : Char) (rest2 : List Char) (h : d ≠ lbraceChar) :
    escapeSpec ('$' :: d :: rest2) = '$' :: escapeSpec (d :: rest2) := by
  rw [escapeSpec.eq_def]
  simp [show ¬ ('$' = backtickChar) from by decide, h]

/-- Branch equation of `escapeSpec` at any other character. -/
theorem escapeSpec_other (c : Char) (rest : List Char)
    (h1 : c ≠ backtickChar) (h2 : c ≠ '$') :
    escapeSpec (c :: rest) = c :: escapeSpec rest := by
  rw [escapeSpec.eq_def]
  cases rest with
  | nil => simp [h1, h2]
  | cons d r => simp [h1, h2]

/-- Helper: the second `replace` call of line 155, applied to
backtick-escaped text, produces exactly the single-pass spec-side escaping. -/
theorem pyReplace_dollar_bEsc (l : List Char) :
    pyReplace '$' [lbraceChar] ['\\', '$', lbraceChar] (bEsc l) = escapeSpec l := by
  have g1 : ¬ ('$' = backtickChar) := by decide
  have g2 : ¬ (lbraceChar = backtickChar) := by decide
  have f1 : ('$' == '\\') = false := by decide
  have f2 : ('$' == backtickChar) = false := by decide
  induction l using escapeSpec.induct with
  | case1 =>
    rw [escapeSpec.eq_def]
    simp [bEsc, pyReplace]
  | case2 rest ih =>
    simp [bEsc, pyReplace, escapeSpec_backtick, List.isPrefixOf, f1, f2, ih]
  | case3 h =>
    simp [bEsc, pyReplace, escapeSpec_dollar_nil, List.isPrefixOf, g1]
  | case4 rest2 h ih =>
    simp [bEsc, pyReplace, escapeSpec_dollar_lbrace, List.isPrefixOf, g1, g2, ih]
  | case5 d rest2 hd h ih =>
    have hpre : [lbraceChar].isPrefixOf (bEsc (d :: rest2)) = false :=
      isPrefixOf_lbrace_bEsc (d :: rest2) (by simp [hd])
    have hbe : bEsc ('$' :: d :: rest2) = '$' :: bEsc (d :: rest2) := by
      rw [bEsc, if_neg g1]
    have hstep : pyReplace '$' [lbraceChar] ['\\', '$', lbraceChar]
        ('$' :: bEsc (d :: rest2)) =
        '$' :: pyReplace '$' [lbraceChar] ['\\', '$', lbraceChar] (bEsc (d :: rest2)) := by
      have hfalse : ['$', lbraceChar].isPrefixOf ('$' :: bEsc (d :: rest2)) = false := by
        simp [List.isPrefixOf, hpre]
      simp [pyReplace, hfalse]
    rw [hbe, hstep, ih, escapeSpec_dollar_other d rest2 hd]
  | case6 d rest2 h1 h2 ih =>
    have hbe : bEsc (d :: rest2) = d :: bEsc rest2 := by
      rw [bEsc, if_neg h1]
    have hdb : ('$' == d) = false := by
      rw [beq_eq_false_iff_ne]
      exact fun hh => h2 hh.symm
    simp [hbe, pyReplace, List.isPrefixOf, hdb, ih, escapeSpec_other d rest2 h1 h2]

/-- C4: the output-normalization applied before embedding (line 155 of
`create_markmap_html`) is extensionally equal to the single-pass spec-side
escaping, which prefixes exactly every backtick and every dollar-brace
token start with a backslash escape marker and applies no other
transformation; both sides are pure total functions of the input. -/
theorem c4_escape_exactly_two_sequences (s : List Char) :
    markmap_escape s = escapeSpec s := by
  unfold markmap_escape
  rw [pyReplace_backtick_eq, pyReplace_dollar_bEsc]
